import Mathlib

/-!
# Verification of the `NiftiMapsMasker` region-signal extraction orchestrator

This file gives a shallow embedding of `nilearn/maskers/nifti_maps_masker.py`
(the fit / transform / inverse_transform state machine for map-based signal
extraction) and proves properties of its control flow: eager configuration
validation, the overlap check, interpolation policy, frame conditions of
`fit` and `transform`, and the behavior of the report-map selection.

Modelling conventions:

* A Nifti image is split into a header (`Img`: shape, affine, dtype kind,
  and a reference into a heap of voxel arrays) and its voxel data, which
  lives in a `Store` (a list of arrays indexed by `Img.ref`).  This heap
  makes frame conditions (what `fit`/`transform` leave untouched) provable
  rather than vacuous.
* Voxel values are rationals; a 4D image's array is stored as one row per
  spatial voxel, each row listing the values along the fourth axis
  (maps, or timepoints).  A 3D image has singleton rows.
* Affines are compared only for equality (grid agreement), so they are
  kept abstract as integer lists.
* Errors are an inductive `Err`; Python exception classes map to its
  constructors.  Each function returns its outcome together with the
  final object state, the heap, and a trace of `Event`s recording which
  expensive operations ran (image loading, resampling with which
  interpolation, signal extraction, cleaning).
-/

deriving instance DecidableEq for Except

namespace Nilearn

/-- Voxel data of one image: one row per spatial voxel, the row listing the
values along the fourth (maps / time) axis; 3D images have singleton rows. -/
abbrev VoxData := List (List Rat)

/-- The heap of voxel arrays; images refer to entries by index. -/
abbrev Store := List VoxData

/-- Read the voxel array of heap entry `r` (empty if the index is dangling). -/
def readData (s : Store) (r : Nat) : VoxData := s.getD r []

/-- Overwrite the voxel array of heap entry `r` in place (a numpy in-place
assignment through an array alias); a dangling index writes nothing. -/
def writeData (s : Store) (r : Nat) (d : VoxData) : Store := s.set r d

/-- An image header: shape (3 or 4 entries for a valid image, anything for an
invalid input), affine (abstract, compared only for equality), whether the
dtype is a floating-point kind, and the heap reference of its voxel array. -/
structure Img where
  shape : List Nat
  affine : List Int
  isFloat : Bool
  ref : Nat
deriving DecidableEq

/-- Interpolation modes of the resampling service. -/
inductive Interp
  | nearest
  | linear
deriving DecidableEq

/-- Which fitted object a resampling call targets. -/
inductive RKind
  | maps
  | mask
deriving DecidableEq

/-- Trace events: loading/validating image data, a resampling call with its
interpolation argument, signal extraction, signal cleaning. -/
inductive Event
  | load
  | resampled (k : RKind) (i : Interp)
  | extract
  | clean
deriving DecidableEq

/-- Error classes.  In the Python source all of these are `ValueError`-like
exceptions; the spec groups them as `ConfigurationError`, `GeometryError`,
`OverlapError`, `NotFittedError` and image-validation failures. -/
inductive Err
  | configError
  | dimensionError
  | fovError
  | maskError
  | overlapError
  | notFittedError
  | typeError
  | valueError
deriving DecidableEq

/-- The `resampling_target` constructor parameter.  Python accepts the
strings "data", "mask", "maps" or `None`; every other value is invalid and
rejected at fit time (`invalid` stands for any such value). -/
inductive ResamplingTarget
  | dataT
  | maskT
  | mapsT
  | noneT
  | invalid
deriving DecidableEq

/-- The `displayed_maps` argument of `generate_report`: an int, a list/array
of indices, the string "all", any other string, or a non-recognized type. -/
inductive DisplayedMaps
  | int (n : Nat)
  | list (l : List Nat)
  | strAll
  | strOther
  | otherType
deriving DecidableEq

/-- The masker object: constructor parameters followed by the attributes
assigned by `fit` (`maps_img_`, `mask_img_`, `n_elements_`,
`_reporting_data`).  A `none` in a fitted attribute models the attribute not
being set (`hasattr` false); `mask_img_ = some none` models the attribute
set to Python `None`. -/
structure Masker where
  maps_img : Option Img
  mask_img : Option Img
  allow_overlap : Bool
  resampling_target : ResamplingTarget
  keep_masked_maps : Bool
  reports : Bool
  mapsImg' : Option Img
  maskImg' : Option (Option Img)
  nElements' : Option Nat
  reportingData : Option (Option Img)
deriving DecidableEq

/-- `check_same_fov`: two images share a field of view iff their spatial
shapes (first three axes) and affines agree.  Modelled from the spec:
the volume I/O boundary's `same_shape_and_affine` (§6). -/
def check_same_fov (sh₁ : List Nat) (af₁ : List Int) (sh₂ : List Nat)
    (af₂ : List Int) : Bool :=
  decide (sh₁.take 3 = sh₂.take 3) && decide (af₁ = af₂)

/-- `check_niimg`: validate that an input is a 3D or 4D volume, optionally
promoting a 3D volume to 4D with a single volume along the last axis.
Modelled from the spec: the volume I/O boundary loads a handle into a
Volume and fails on anything that is not a 3D/4D volume (§3, §6). -/
def check_niimg (img : Img) (atleast4d : Bool) : Except Err Img :=
  if img.shape.length = 4 then .ok img
  else if img.shape.length = 3 then
    .ok (if atleast4d then { img with shape := img.shape ++ [1] } else img)
  else .error .dimensionError

/-- Sanitization applied by `clean_img(..., ensure_finite=True)` at fit
time: non-finite voxel values are replaced by 0.  Rational-valued voxels
are always finite, so on representable data this is the identity; it is
kept as a named stage so the fit pipeline mirrors the source. -/
def ensureFinite (d : VoxData) : VoxData := d

/-- Machine epsilon of float64, `np.finfo(np.float64).eps` = 2 ^ (-52),
written as an explicit reduced fraction 1 / 2 ^ 52. -/
def machineEps : Rat := ⟨1, 4503599627370496, by decide, Nat.coprime_one_left _⟩

/-- The in-place zeroing `data[data < np.finfo(dtype).eps] = 0.0` performed
by the overlap check on floating-point maps: every value strictly below
machine epsilon (including all negative values) becomes 0. -/
def zeroSubEps (d : VoxData) : VoxData :=
  d.map (List.map fun v => if v < machineEps then 0 else v)

/-- Number of maps with strictly positive value at one voxel
(`np.sum(data > 0.0, axis=3)` at a single voxel). -/
def posCount (row : List Rat) : Nat :=
  row.countP fun v => decide (0 < v)

/-- The overlap test of `transform_single_imgs` (lines 654-669): after
zeroing sub-epsilon values when the dtype is floating, some voxel has a
strictly positive value in more than one map.  No mask is applied. -/
def hasOverlapData (isFloat : Bool) (d : VoxData) : Bool :=
  let d := if isFloat then zeroSubEps d else d
  d.any fun row => decide (1 < posCount row)

/-- The overlap condition in the spec's words: some voxel that survives the
mask (mask value non-zero) has, after sub-epsilon zeroing for float maps, a
strictly positive value in more than one map. -/
def overlapAfterMasking (maskData : VoxData) (isFloat : Bool)
    (d : VoxData) : Bool :=
  let d := if isFloat then zeroSubEps d else d
  (maskData.zip d).any fun p =>
    decide ((p.1.getD 0 0) ≠ 0) && decide (1 < posCount p.2)

/-- Binary-mask validation performed by `load_mask_img`: every voxel value
must be 0 or 1.  Modelled from the spec: a mask is a 3D binary volume (§3). -/
def isBinaryMaskData (d : VoxData) : Bool :=
  d.all (List.all · fun v => decide (v = 0) || decide (v = 1))

/-- An in-memory image value (header fields plus its voxel array), used for
images that have been loaded or freshly produced inside a call. -/
structure RImg where
  shape : List Nat
  affine : List Int
  isFloat : Bool
  data : VoxData
deriving DecidableEq

/-- Load a stored image into an in-memory value. -/
def loadImg (s : Store) (img : Img) : RImg :=
  ⟨img.shape, img.affine, img.isFloat, readData s img.ref⟩

/-- Geometric resampling of the stored samples.  Modelled from the spec:
the Geometry/Resampling service (§4.1).  The interpolation numerics are
abstracted (the samples are carried over unchanged, which satisfies the
spec's idempotence clause for an identical grid); the grid fields are set
to the target.  Which interpolation mode each call site passes is what the
claims constrain, and it is recorded in the returned `Event`. -/
def resample_img (k : RKind) (img : RImg) (interp : Interp)
    (tshape3 : List Nat) (taff : List Int) : RImg × Event :=
  (⟨tshape3.take 3 ++ img.shape.drop 3, taff, img.isFloat, img.data⟩,
    .resampled k interp)

/-- A region-signal matrix: one row per timepoint, one column per region. -/
abbrev Signals := List (List Rat)

/-- Optional confound regressors (rows aligned with timepoints). -/
abbrev Confounds := Option (List (List Rat))

/-- Optional sample mask: indices of the timepoint rows to retain. -/
abbrev SampleMask := Option (List Nat)

/-- Outcome of `fit`'s body: result, the object state as left by the call
(partial updates included when an error is raised mid-way), the voxel
arrays newly allocated on the heap, and the event trace. -/
structure FitOut where
  out : Except Err Unit
  state : Masker
  acc : List VoxData
  events : List Event
deriving DecidableEq

/-- Grid agreement required by `resampling_target=None`
(`check_same_fov(raise_error=True, **images)`, fit lines 444-451 and
transform lines 597-601): the mask and the data, when present, must share
the maps' field of view. -/
def fovAllCheck (maps : Img) (maskOpt imgsOpt : Option Img) : Bool :=
  (match maskOpt with
    | none => true
    | some mk => check_same_fov maps.shape maps.affine mk.shape mk.affine)
  && (match imgsOpt with
    | none => true
    | some ii => check_same_fov maps.shape maps.affine ii.shape ii.affine)

/-- Lines 497-516 of `fit`: store the reporting data, set `n_elements_` to
the number of volumes of the (possibly resampled) maps image, return self. -/
def fitFinish (m : Masker) (mapsFinal : Img) (acc : List VoxData)
    (evs : List Event) : FitOut :=
  let m₁ := if m.reports then { m with reportingData := some (some mapsFinal) }
            else { m with reportingData := some none }
  ⟨.ok (), { m₁ with nElements' := some (mapsFinal.shape.getD 3 0) }, acc, evs⟩

/-- Lines 444-495 of `fit`: grid agreement for `resampling_target=None`,
reference-grid resolution, and resampling of maps (linear) and mask
(nearest) to the reference grid, with binary validation of a resampled
mask (`load_mask_img`, line 495). -/
def fitAlign (s : Store) (m₂ : Masker) (imgsOpt : Option Img)
    (mapsClean : Img) (dClean : VoxData) (maskOpt : Option Img)
    (acc : List VoxData) (evs : List Event) : FitOut :=
  if m₂.resampling_target == .noneT then
    if fovAllCheck mapsClean maskOpt imgsOpt then
      fitFinish m₂ mapsClean acc evs
    else ⟨.error .fovError, m₂, acc, evs⟩
  else
    -- lines 453-459: which image provides the reference grid
    let refOpt : Option Img :=
      if m₂.resampling_target == .dataT then imgsOpt
      else if m₂.resampling_target == .maskT then maskOpt
      else if m₂.resampling_target == .mapsT then some mapsClean
      else none
    match refOpt with
    | none => fitFinish m₂ mapsClean acc evs
    | some ref =>
      -- lines 461-476: resample the maps with linear interpolation
      let mapsStep :=
        if (m₂.resampling_target == ResamplingTarget.mapsT)
            || check_same_fov ref.shape ref.affine
                 mapsClean.shape mapsClean.affine then
          (mapsClean, acc, evs, m₂)
        else
          let re := resample_img .maps
            ⟨mapsClean.shape, mapsClean.affine, mapsClean.isFloat, dClean⟩
            .linear (ref.shape.take 3) ref.affine
          let newImg : Img :=
            ⟨re.1.shape, re.1.affine, re.1.isFloat, s.length + acc.length⟩
          (newImg, acc ++ [re.1.data], evs ++ [re.2],
            { m₂ with mapsImg' := some newImg })
      match mapsStep with
      | (maps₃, acc₃, evs₃, m₃) =>
        -- lines 477-495: resample the mask with nearest interpolation
        match maskOpt with
        | none => fitFinish m₃ maps₃ acc₃ evs₃
        | some mk =>
          if check_same_fov ref.shape ref.affine mk.shape mk.affine then
            fitFinish m₃ maps₃ acc₃ evs₃
          else
            let re := resample_img .mask
              ⟨mk.shape, mk.affine, mk.isFloat, readData s mk.ref⟩
              .nearest (ref.shape.take 3) ref.affine
            let newMask : Img :=
              ⟨re.1.shape, re.1.affine, re.1.isFloat, s.length + acc₃.length⟩
            let m₄ := { m₃ with maskImg' := some (some newMask) }
            -- line 495: `load_mask_img` validates the resampled mask
            if isBinaryMaskData re.1.data then
              fitFinish m₄ maps₃ (acc₃ ++ [re.1.data]) (evs₃ ++ [re.2])
            else ⟨.error .maskError, m₄, acc₃ ++ [re.1.data], evs₃ ++ [re.2]⟩

/-- Line 442 of `fit`: `self.mask_img_ = self._load_mask(imgs)`.  Modelled
from the spec: the mask loader of the base masker validates that the mask,
when given, is a 3D volume; a raise inside it leaves `mask_img_` unset. -/
def fitLoadMask (s : Store) (m₁ : Masker) (imgsOpt : Option Img)
    (mapsClean : Img) (dClean : VoxData) (acc : List VoxData)
    (evs : List Event) : FitOut :=
  match m₁.mask_img with
  | none =>
    fitAlign s { m₁ with maskImg' := some none } imgsOpt mapsClean dClean
      none acc evs
  | some mk =>
    if mk.shape.length = 3 then
      fitAlign s { m₁ with maskImg' := some (some mk) } imgsOpt mapsClean
        dClean (some mk) acc (evs ++ [.load])
    else ⟨.error .dimensionError, m₁, acc, evs ++ [.load]⟩

/-- Body of `NiftiMapsMasker.fit` (source lines 393-516).  Each
`self.attr = value` assignment becomes a record update of the threaded
state, so an error raised mid-way leaves exactly the updates made before
it.  The heap reference of the n-th array allocated by this call is
`s.length + n`; the wrapper `fit` appends `acc` to the heap. -/
def fitCore (s : Store) (m : Masker) (imgs : Option Img) : FitOut :=
  -- lines 396-400: invalid resampling_target rejected first
  if m.resampling_target == .invalid then
    ⟨.error .configError, m, [], []⟩
  -- lines 402-407: resampling_target "mask" requires a mask
  else if m.mask_img == none && m.resampling_target == .maskT then
    ⟨.error .configError, m, [], []⟩
  else
    -- lines 420-437: deepcopy the maps, then check_niimg(atleast_4d=True),
    -- then clean_img(ensure_finite=True); each step reassigns maps_img_
    match m.maps_img with
    | none =>
      -- deepcopy(None) stores None, then check_niimg(None) raises
      ⟨.error .dimensionError, { m with mapsImg' := none }, [], []⟩
    | some mi =>
      let d0 := readData s mi.ref
      let copyImg : Img := { mi with ref := s.length }
      match check_niimg copyImg true with
      | .error e =>
        ⟨.error e, { m with mapsImg' := some copyImg }, [d0], [.load]⟩
      | .ok img4 =>
        let mapsClean : Img := { img4 with ref := s.length + 1 }
        let m₁ := { m with mapsImg' := some mapsClean }
        let acc₁ := [d0, ensureFinite d0]
        -- lines 439-440: validate imgs when provided
        match imgs with
        | some ii =>
          match check_niimg ii false with
          | .error e => ⟨.error e, m₁, acc₁, [.load, .load]⟩
          | .ok ii' =>
            fitLoadMask s m₁ (some ii') mapsClean (ensureFinite d0) acc₁
              [.load, .load]
        | none =>
          fitLoadMask s m₁ none mapsClean (ensureFinite d0) acc₁ [.load]

/-- Result of `fit`: outcome, the object state left by the call, the heap
after the call, and the event trace. -/
structure FitResult where
  out : Except Err Unit
  state : Masker
  store : Store
  events : List Event
deriving DecidableEq

/-- `NiftiMapsMasker.fit`: run the body and append the arrays it allocated
to the heap. -/
def fit (s : Store) (m : Masker) (imgs : Option Img) : FitResult :=
  let r := fitCore s m imgs
  ⟨r.out, r.state, s ++ r.acc, r.events⟩

/-- Lines 597-652 of `transform_single_imgs`: for `resampling_target=None`
check grid agreement; for `resampling_target="data"` lazily resample the
fitted maps (linear) and mask (nearest) to the incoming volume's grid —
the resampled images are fresh call-local objects, allocated here on the
heap; on the no-resample paths the locals alias the fitted objects
themselves.  Returns the local maps and mask images and the heap holding
any allocations. -/
def transformAlign (s : Store) (m : Masker) (maps0 : Img)
    (mask0 : Option Img) (imgs4 : Img) :
    Except Err (Img × Option Img × Store × List Event) :=
  if m.resampling_target == .noneT then
    if fovAllCheck maps0 mask0 (some imgs4) then
      .ok (maps0, mask0, s, [])
    else .error .fovError
  else if m.resampling_target == .dataT then
    let mres :=
      if check_same_fov imgs4.shape imgs4.affine maps0.shape maps0.affine then
        (maps0, s, ([] : List Event))
      else
        let re := resample_img .maps (loadImg s maps0) .linear
          (imgs4.shape.take 3) imgs4.affine
        ((⟨re.1.shape, re.1.affine, re.1.isFloat, s.length⟩ : Img),
          s ++ [re.1.data], [re.2])
    match mres with
    | (maps₁, s₁, evsM) =>
      let kres :=
        match mask0 with
        | none => ((none : Option Img), s₁, ([] : List Event))
        | some mk =>
          if check_same_fov imgs4.shape imgs4.affine mk.shape mk.affine then
            (some mk, s₁, ([] : List Event))
          else
            let re := resample_img .mask (loadImg s₁ mk) .nearest
              (imgs4.shape.take 3) imgs4.affine
            (some (⟨re.1.shape, re.1.affine, re.1.isFloat, s₁.length⟩ :
                Img),
              s₁ ++ [re.1.data], [re.2])
      match kres with
      | (mask₁, s₂, evsK) => .ok (maps₁, mask₁, s₂, evsM ++ evsK)
  else
    .ok (maps0, mask0, s, [])

/-- Body of `NiftiMapsMasker.transform_single_imgs` (source lines 549-711),
parametrized by the extraction functor (`img_to_signals_maps`) and the
signal cleaner used inside `filter_and_extract`.  Returns the outcome, the
heap after the call, and the event trace.  The method assigns no attribute
of `self`; but the overlap check's `data = get_data(maps_img_)` receives
an in-memory image's own array (not a copy), so for a floating dtype the
sub-epsilon zeroing `data[data < eps] = 0.0` (line 661) is an in-place
write to that array — on the no-resample paths, to the fitted
`maps_img_`'s own heap entry. -/
def transformRun (ext : VoxData → VoxData → Option VoxData → Bool → Signals)
    (cleanFn : Signals → Confounds → SampleMask → Signals)
    (s : Store) (m : Masker) (imgs : Img)
    (confounds : Confounds) (sample_mask : SampleMask) :
    Except Err Signals × Store × List Event :=
  -- line 573: check_is_fitted (attributes `maps_img_` and `n_elements_`)
  match m.mapsImg', m.nElements' with
  | some maps0, some _ =>
    -- lines 592-593: work on local names for the fitted images
    let mask0 : Option Img := m.maskImg'.getD none
    -- line 595: validate the input, promoting 3D to 4D
    match check_niimg imgs true with
    | .error e => (.error e, s, [.load])
    | .ok imgs4 =>
      match transformAlign s m maps0 mask0 imgs4 with
      | .error e => (.error e, s, [.load])
      | .ok (maps₁, mask₁, s₁, evs) =>
        -- lines 654-669: overlap check, strictly before extraction; the
        -- float-dtype zeroing mutates the maps array in place
        let s₂ :=
          if !m.allow_overlap && maps₁.isFloat then
            writeData s₁ maps₁.ref (zeroSubEps (readData s₁ maps₁.ref))
          else s₁
        if !m.allow_overlap
            && (readData s₂ maps₁.ref).any
                (fun row => decide (1 < posCount row)) then
          (.error .overlapError, s₂, .load :: evs)
        else
          -- lines 677-711: filter_and_extract = extraction then cleaning
          let sig := ext (readData s₂ imgs.ref) (readData s₂ maps₁.ref)
            (mask₁.map fun mk => readData s₂ mk.ref) m.keep_masked_maps
          (.ok (cleanFn sig confounds sample_mask),
            s₂, .load :: evs ++ [.extract, .clean])
  | _, _ => (.error .notFittedError, s, [])

/-- Result of `transform`: outcome, object state, heap and event trace. -/
structure TransformResult where
  out : Except Err Signals
  state : Masker
  store : Store
  events : List Event
deriving DecidableEq

/-- `NiftiMapsMasker.transform_single_imgs`: the method assigns no `self`
attribute, so the returned object state is the one given; the returned
heap carries the call's allocations and the overlap check's in-place
zeroing of the maps array. -/
def transform_single_imgs
    (ext : VoxData → VoxData → Option VoxData → Bool → Signals)
    (cleanFn : Signals → Confounds → SampleMask → Signals)
    (s : Store) (m : Masker) (imgs : Img)
    (confounds : Confounds) (sample_mask : SampleMask) : TransformResult :=
  let r := transformRun ext cleanFn s m imgs confounds sample_mask
  ⟨r.1, m, r.2.1, r.2.2⟩

/-- Modelled from the spec: the public `transform` of the base masker
(§4.5) delegates a single 4D volume to `transform_single_imgs`. -/
def transform
    (ext : VoxData → VoxData → Option VoxData → Bool → Signals)
    (cleanFn : Signals → Confounds → SampleMask → Signals)
    (s : Store) (m : Masker) (imgs : Img)
    (confounds : Confounds) (sample_mask : SampleMask) : TransformResult :=
  transform_single_imgs ext cleanFn s m imgs confounds sample_mask

/-- `NiftiMapsMasker.fit_transform` (source lines 521-547):
`self.fit(imgs).transform(imgs, confounds=confounds,
sample_mask=sample_mask)`; a fit failure propagates. -/
def fit_transform
    (ext : VoxData → VoxData → Option VoxData → Bool → Signals)
    (cleanFn : Signals → Confounds → SampleMask → Signals)
    (s : Store) (m : Masker) (imgs : Img)
    (confounds : Confounds) (sample_mask : SampleMask) : TransformResult :=
  let fr := fit s m (some imgs)
  match fr.out with
  | .error e => ⟨.error e, fr.state, fr.store, fr.events⟩
  | .ok _ =>
    let tr := transform ext cleanFn fr.store fr.state imgs confounds
      sample_mask
    ⟨tr.out, tr.state, tr.store, fr.events ++ tr.events⟩

/-- Dot product of two rational vectors (truncated to the shorter one). -/
def dotQ (a b : List Rat) : Rat :=
  (a.zip b).foldl (fun acc p => acc + p.1 * p.2) 0

/-- Modelled from the spec: `signals_to_img_maps` of the signal-extraction
module (§4.4) — the adjoint reconstruction.  Output intensity at a voxel is
the map-weighted sum of the region signals, restricted to mask==1 voxels;
voxels outside the mask are zero. -/
def signals_to_img_maps (signals : Signals) (mapsData : VoxData)
    (maskData : Option VoxData) : VoxData :=
  (List.range mapsData.length).map fun v =>
    let keep := match maskData with
      | none => true
      | some mk => decide ((mk.getD v []).getD 0 0 ≠ 0)
    if keep then signals.map (fun srow => dotQ srow (mapsData.getD v []))
    else signals.map fun _ => 0

/-- Result of `inverse_transform`: outcome, heap and event trace. -/
structure InverseResult where
  out : Except Err Img
  store : Store
  events : List Event
deriving DecidableEq

/-- `NiftiMapsMasker.inverse_transform` (source lines 713-740):
check_is_fitted, then delegate to `signals_to_img_maps` on the fitted maps
and mask; the reconstructed volume keeps the fitted maps' grid. -/
def inverse_transform (s : Store) (m : Masker) (signals : Signals) :
    InverseResult :=
  match m.mapsImg', m.nElements' with
  | some maps0, some _ =>
    let mask0 := m.maskImg'.getD none
    let d := signals_to_img_maps signals (readData s maps0.ref)
      (mask0.map fun mk => readData s mk.ref)
    ⟨.ok ⟨maps0.shape.take 3 ++ [signals.length], maps0.affine, true,
      s.length⟩, s ++ [d], [.load]⟩
  | _, _ => ⟨.error .notFittedError, s, []⟩

/-- Modelled from the spec: `img_to_signals_maps` of the signal-extraction
module (§4.2).  The spec prescribes least-squares unmixing of the masked
voxel data against the map design matrix; the solver is abstracted here to
the application of the design matrix, a fixed linear functional of the
masked voxel data (no claim below constrains the regression numerics).
`keepMaskedMaps` selects the drop/keep policy for fully-masked maps, which
is likewise outside the verified claims. -/
def img_to_signals_maps (imgsData mapsData : VoxData)
    (maskData : Option VoxData) (keepMaskedMaps : Bool) : Signals :=
  let _ := keepMaskedMaps
  let nT := (imgsData.getD 0 []).length
  let nM := (mapsData.getD 0 []).length
  (List.range nT).map fun t =>
    (List.range nM).map fun j =>
      (List.range mapsData.length).foldl (fun acc v =>
        let keep := match maskData with
          | none => true
          | some mk => decide ((mk.getD v []).getD 0 0 ≠ 0)
        if keep then
          acc + ((imgsData.getD v []).getD t 0) * ((mapsData.getD v []).getD j 0)
        else acc) 0

/-- Modelled from the spec: the signal cleaner (§4.3).  Sample-mask row
subselection precedes the temporal stages; the numeric stages (confound
regression, detrending, filtering, standardization) are abstracted as the
identity since no claim below constrains them. -/
def clean_signals (sig : Signals) (confounds : Confounds)
    (sample_mask : SampleMask) : Signals :=
  let _ := confounds
  match sample_mask with
  | none => sig
  | some rows => rows.map fun r => sig.getD r []

/-- The map-selection logic of `NiftiMapsMasker._reporting` (source lines
306-332): returns which maps will be displayed, whether a warning was
emitted, and the updated `displayed_maps` attribute.  An integer request
larger than the number of maps warns and is clamped to `n_maps`; a
list/array whose maximum exceeds `n_maps` raises a `ValueError` (as does
Python's `max` of an empty list); the string case keeps the default
`range(n_maps)`. -/
def reporting_maps_to_be_displayed (displayed : DisplayedMaps)
    (nMaps : Nat) : Except Err (List Nat × Bool × DisplayedMaps) :=
  match displayed with
  | .int k =>
    if nMaps < k then .ok (List.range nMaps, true, .int nMaps)
    else .ok (List.range k, false, .int k)
  | .list l =>
    match l with
    | [] => .error .valueError
    | x :: xs =>
      if nMaps < (x :: xs).foldl Nat.max 0 then .error .valueError
      else .ok (x :: xs, false, .list (x :: xs))
  | _ => .ok (List.range nMaps, false, displayed)

/-- The interpolation policy: every maps resampling uses linear
interpolation, every mask resampling uses nearest-neighbor. -/
def interpPolicyOK (evs : List Event) : Bool :=
  evs.all fun e => match e with
    | .resampled .maps i => i == Interp.linear
    | .resampled .mask i => i == Interp.nearest
    | _ => true

section Examples

/-- Three distinct affines for the concrete scenarios. -/
def aff0 : List Int := [1, 0, 0, 0]

def aff1 : List Int := [2, 0, 0, 0]

/-- Overlapping maps: at the first voxel both maps are strictly positive. -/
def mapsDataO : VoxData := [[1, 1], [1, 0], [0, 0], [0, 0]]

/-- An all-ones binary mask over the four voxels. -/
def maskDataE : VoxData := [[1], [1], [1], [1]]

/-- A 4D data volume with three timepoints. -/
def imgsDataE : VoxData := [[1, 2, 3], [4, 5, 6], [7, 8, 9], [10, 11, 12]]

/-- The example heap: maps at 0, mask at 1, data at 2. -/
def store0 : Store := [mapsDataO, maskDataE, imgsDataE]

def mapsImg0 : Img := ⟨[2, 2, 1, 2], aff0, true, 0⟩

def maskImg0 : Img := ⟨[2, 2, 1], aff0, false, 1⟩

def imgsImg0 : Img := ⟨[2, 2, 1, 3], aff0, true, 2⟩

/-- A 4D input volume on a different grid than the maps. -/
def imgsImgB : Img := ⟨[3, 3, 1, 3], aff1, true, 2⟩

/-- An invalid (2D) input volume. -/
def imgsBad : Img := ⟨[5, 5], aff1, true, 2⟩

/-- An unfitted masker over the overlapping maps, with
`allow_overlap=False` and `resampling_target="data"`. -/
def masker0 : Masker :=
  { maps_img := some mapsImg0, mask_img := some maskImg0,
    allow_overlap := false, resampling_target := .dataT,
    keep_masked_maps := true, reports := true,
    mapsImg' := none, maskImg' := none, nElements' := none,
    reportingData := none }

/-- The same configuration without a mask and with overlap allowed. -/
def masker3 : Masker :=
  { masker0 with mask_img := none, allow_overlap := true }

/-- A misconfiguration: `resampling_target="mask"` without a mask. -/
def maskerNoMask : Masker :=
  { masker0 with mask_img := none, resampling_target := .maskT }

/-- A misconfiguration: an unrecognized `resampling_target` value. -/
def maskerBadRT : Masker :=
  { masker0 with resampling_target := .invalid }

/-- A fitted masker over the overlapping maps (the fitted attributes point
straight at the example heap entries). -/
def maskerF : Masker :=
  { masker0 with
    mapsImg' := some mapsImg0,
    maskImg' := some (some maskImg0), nElements' := some 2 }

/-- `masker3` carrying stale fitted attributes, for the wholesale-refit
witness. -/
def maskerStale : Masker :=
  { masker3 with
    mapsImg' := some mapsImg0, maskImg' := some (some maskImg0),
    nElements' := some 99, reportingData := some none }

/-- Maps with a negative value at the first voxel (and no overlap after
sub-epsilon zeroing): `zeroSubEps` changes this array. -/
def mapsDataN : VoxData := [[1, -1], [1, 0], [0, 0], [0, 0]]

/-- The heap for the in-place-mutation scenario: the fitted maps array
(entry 0) contains a negative value. -/
def storeN : Store := [mapsDataN, maskDataE, imgsDataE]

end Examples

section Lemmas

/-- Reading below the old length is unaffected by appended allocations. -/
theorem readData_append_left (s t : Store) (r : Nat) (h : r < s.length) :
    readData (s ++ t) r = readData s r := by
  unfold readData
  rw [List.getD_eq_getElem?_getD, List.getElem?_append_left h,
    ← List.getD_eq_getElem?_getD]

/-- Reading back an entry just overwritten with the sub-epsilon-zeroed
copy of itself yields that zeroed array (a dangling index reads the empty
array on both sides). -/
theorem readData_writeData_self (s : Store) (r : Nat) :
    readData (writeData s r (zeroSubEps (readData s r))) r
      = zeroSubEps (readData s r) := by
  rcases Nat.lt_or_ge r s.length with h | h
  · unfold readData writeData
    rw [List.getD_eq_getElem?_getD, List.getElem?_set_eq_of_lt _ h]
    rfl
  · unfold writeData
    rw [List.set_eq_of_length_le h]
    have hz : readData s r = [] := by
      unfold readData
      rw [List.getD_eq_getElem?_getD, List.getElem?_eq_none h]
      rfl
    rw [hz]
    rfl

/-- `check_niimg` only fails with a dimension error. -/
theorem check_niimg_err (img : Img) (b : Bool) (e : Err)
    (h : check_niimg img b = .error e) : e = .dimensionError := by
  unfold check_niimg at h
  split at h
  · exact absurd h (by simp)
  · split at h <;> simp_all

/-- `transformAlign` only fails with a field-of-view error. -/
theorem transformAlign_err (s : Store) (m : Masker) (maps0 : Img)
    (mask0 : Option Img) (imgs4 : Img) (e : Err)
    (h : transformAlign s m maps0 mask0 imgs4 = .error e) : e = .fovError := by
  unfold transformAlign at h
  dsimp only at h
  repeat' split at h
  all_goals simp_all

/-- `transformAlign` emits only resampling events. -/
theorem transformAlign_no_extract (s : Store) (m : Masker) (maps0 : Img)
    (mask0 : Option Img) (imgs4 : Img) (a : Img) (b : Option Img)
    (s' : Store) (evs : List Event)
    (h : transformAlign s m maps0 mask0 imgs4 = .ok (a, b, s', evs)) :
    Event.extract ∉ evs ∧ Event.clean ∉ evs := by
  unfold transformAlign at h
  dsimp only at h
  repeat' split at h
  all_goals try simp only [Except.ok.injEq, Prod.mk.injEq] at h
  all_goals first
    | (obtain ⟨-, -, -, hevs⟩ := h
       subst hevs
       simp [resample_img])
    | simp_all [resample_img]

/-- The spec's masked overlap condition implies the source's (maskless)
overlap test: a masked voxel with two positive maps is in particular a
voxel with two positive maps. -/
theorem overlapAfterMasking_mono (mk d : VoxData) (f : Bool)
    (h : overlapAfterMasking mk f d = true) : hasOverlapData f d = true := by
  unfold overlapAfterMasking at h
  unfold hasOverlapData
  rw [List.any_eq_true] at h ⊢
  obtain ⟨p, hp, hpred⟩ := h
  refine ⟨p.2, (List.of_mem_zip hp).2, ?_⟩
  simp only [Bool.and_eq_true, decide_eq_true_eq] at hpred
  simpa using hpred.2

theorem fitFinish_out (m : Masker) (maps : Img) (acc : List VoxData)
    (evs : List Event) : (fitFinish m maps acc evs).out = .ok () := rfl

theorem fitAlign_ne_overlap (s : Store) (m₂ : Masker) (io : Option Img)
    (mc : Img) (dc : VoxData) (mo : Option Img) (acc : List VoxData)
    (evs : List Event) :
    (fitAlign s m₂ io mc dc mo acc evs).out ≠ .error .overlapError := by
  cases io <;> cases mo <;>
    · unfold fitAlign
      repeat' split
      all_goals simp_all [fitFinish, apply_ite FitOut.out]
      all_goals repeat' split
      all_goals simp

theorem fitLoadMask_ne_overlap (s : Store) (m₁ : Masker) (io : Option Img)
    (mc : Img) (dc : VoxData) (acc : List VoxData) (evs : List Event) :
    (fitLoadMask s m₁ io mc dc acc evs).out ≠ .error .overlapError := by
  unfold fitLoadMask
  repeat' split
  all_goals first
    | apply fitAlign_ne_overlap
    | simp

theorem fitCore_ne_overlap (s : Store) (m : Masker) (imgs : Option Img) :
    (fitCore s m imgs).out ≠ .error .overlapError := by
  unfold fitCore
  dsimp only
  repeat' split
  all_goals first
    | apply fitLoadMask_ne_overlap
    | (rename_i e heq
       have he := check_niimg_err _ _ _ heq
       simp [he])
    | simp

theorem interpPolicyOK_append (a b : List Event) :
    interpPolicyOK (a ++ b) = (interpPolicyOK a && interpPolicyOK b) :=
  List.all_append

theorem interpPolicyOK_snoc_maps (evs : List Event)
    (h : interpPolicyOK evs = true) :
    interpPolicyOK (evs ++ [.resampled .maps .linear]) = true := by
  rw [interpPolicyOK_append, h]
  rfl

theorem interpPolicyOK_snoc_mask (evs : List Event)
    (h : interpPolicyOK evs = true) :
    interpPolicyOK (evs ++ [.resampled .mask .nearest]) = true := by
  rw [interpPolicyOK_append, h]
  rfl

theorem interpPolicyOK_snoc_load (evs : List Event)
    (h : interpPolicyOK evs = true) :
    interpPolicyOK (evs ++ [.load]) = true := by
  rw [interpPolicyOK_append, h]
  rfl

theorem interpPolicyOK_cons_load (evs : List Event)
    (h : interpPolicyOK evs = true) :
    interpPolicyOK (.load :: evs) = true := by
  have hc : Event.load :: evs = [Event.load] ++ evs := rfl
  rw [hc, interpPolicyOK_append, h]
  rfl

theorem interpPolicyOK_extract_clean (evs : List Event)
    (h : interpPolicyOK evs = true) :
    interpPolicyOK (evs ++ [.extract, .clean]) = true := by
  rw [interpPolicyOK_append, h]
  rfl

theorem interp_fitAlign (s : Store) (m₂ : Masker) (io : Option Img)
    (mc : Img) (dc : VoxData) (mo : Option Img) (acc : List VoxData)
    (evs : List Event) (h : interpPolicyOK evs = true) :
    interpPolicyOK (fitAlign s m₂ io mc dc mo acc evs).events = true := by
  cases io <;> cases mo <;>
    · unfold fitAlign
      dsimp only
      repeat' split
      all_goals simp only [fitFinish, apply_ite FitOut.events]
      all_goals
        first
          | exact h
          | exact interpPolicyOK_snoc_maps _ h
          | exact interpPolicyOK_snoc_mask _ h
          | exact interpPolicyOK_snoc_mask _ (interpPolicyOK_snoc_maps _ h)

theorem interp_fitLoadMask (s : Store) (m₁ : Masker) (io : Option Img)
    (mc : Img) (dc : VoxData) (acc : List VoxData) (evs : List Event)
    (h : interpPolicyOK evs = true) :
    interpPolicyOK (fitLoadMask s m₁ io mc dc acc evs).events = true := by
  unfold fitLoadMask
  repeat' split
  all_goals first
    | exact interp_fitAlign _ _ _ _ _ _ _ _ h
    | exact interp_fitAlign _ _ _ _ _ _ _ _ (interpPolicyOK_snoc_load _ h)
    | exact interpPolicyOK_snoc_load _ h

theorem interp_fitCore (s : Store) (m : Masker) (imgs : Option Img) :
    interpPolicyOK (fitCore s m imgs).events = true := by
  unfold fitCore
  dsimp only
  repeat' split
  all_goals first
    | exact interp_fitLoadMask _ _ _ _ _ _ _ (by rfl)
    | rfl

theorem interp_transformAlign (s : Store) (m : Masker) (maps0 : Img)
    (mask0 : Option Img) (imgs4 : Img) (a : Img) (b : Option Img)
    (s' : Store) (evs : List Event)
    (h : transformAlign s m maps0 mask0 imgs4 = .ok (a, b, s', evs)) :
    interpPolicyOK evs = true := by
  unfold transformAlign at h
  dsimp only at h
  repeat' split at h
  all_goals try simp only [Except.ok.injEq, Prod.mk.injEq] at h
  all_goals first
    | (obtain ⟨-, -, -, hevs⟩ := h
       subst hevs
       simp [interpPolicyOK, interpPolicyOK_append, resample_img])
    | simp_all [interpPolicyOK, interpPolicyOK_append, resample_img]

theorem interp_transformRun
    (ext : VoxData → VoxData → Option VoxData → Bool → Signals)
    (cleanFn : Signals → Confounds → SampleMask → Signals)
    (s : Store) (m : Masker) (imgs : Img) (confounds : Confounds)
    (sample_mask : SampleMask) :
    interpPolicyOK
      (transformRun ext cleanFn s m imgs confounds
        sample_mask).2.2 = true := by
  unfold transformRun
  dsimp only
  split
  · split
    · rfl
    · split
      · rfl
      · rename_i maps₁ mask₁ s₁ evs heq
        have hevs := interp_transformAlign _ _ _ _ _ _ _ _ _ heq
        repeat' split
        all_goals first
          | exact interpPolicyOK_cons_load _ hevs
          | exact interpPolicyOK_cons_load _
              (interpPolicyOK_extract_clean _ hevs)
  · rfl

theorem transformRun_aligned
    (ext : VoxData → VoxData → Option VoxData → Bool → Signals)
    (cleanFn : Signals → Confounds → SampleMask → Signals)
    (s : Store) (m : Masker) (imgs : Img) (confounds : Confounds)
    (sample_mask : SampleMask) (maps0 mask0 : Img) (n : Nat)
    (hmaps : m.mapsImg' = some maps0) (hn : m.nElements' = some n)
    (hmask : m.maskImg' = some (some mask0))
    (hrt : m.resampling_target = .dataT)
    (him : imgs.shape.length = 4)
    (hfovM : check_same_fov imgs.shape imgs.affine maps0.shape maps0.affine
      = true)
    (hfovK : check_same_fov imgs.shape imgs.affine mask0.shape mask0.affine
      = true) :
    transformRun ext cleanFn s m imgs confounds sample_mask
      = (let s₂ := if (!m.allow_overlap && maps0.isFloat) = true
            then writeData s maps0.ref (zeroSubEps (readData s maps0.ref))
            else s
         if (!m.allow_overlap
              && hasOverlapData maps0.isFloat (readData s maps0.ref)) = true
         then (.error .overlapError, s₂, [.load])
         else (.ok (cleanFn (ext (readData s₂ imgs.ref)
                (readData s₂ maps0.ref) (some (readData s₂ mask0.ref))
                m.keep_masked_maps) confounds sample_mask),
              s₂, [.load, .extract, .clean])) := by
  unfold transformRun transformAlign
  cases hao : m.allow_overlap with
  | true =>
    simp [hmaps, hn, hmask, hrt, him, hfovM, hfovK, check_niimg, hao]
  | false =>
    cases hif : maps0.isFloat with
    | true =>
      simp [hmaps, hn, hmask, hrt, him, hfovM, hfovK, check_niimg, hao,
        hif, hasOverlapData, readData_writeData_self]
    | false =>
      simp [hmaps, hn, hmask, hrt, him, hfovM, hfovK, check_niimg, hao,
        hif, hasOverlapData]

theorem transformRun_overlap_no_extract
    (ext : VoxData → VoxData → Option VoxData → Bool → Signals)
    (cleanFn : Signals → Confounds → SampleMask → Signals)
    (s : Store) (m : Masker) (imgs : Img) (confounds : Confounds)
    (sample_mask : SampleMask)
    (h : (transformRun ext cleanFn s m imgs confounds sample_mask).1
      = .error .overlapError) :
    Event.extract ∉ (transformRun ext cleanFn s m imgs confounds
      sample_mask).2.2
    ∧ Event.clean ∉ (transformRun ext cleanFn s m imgs confounds
        sample_mask).2.2 := by
  rcases hEq : transformRun ext cleanFn s m imgs confounds sample_mask
    with ⟨out, s', evs⟩
  rw [hEq] at h
  simp only at h
  subst h
  unfold transformRun at hEq
  dsimp only at hEq
  split at hEq
  · split at hEq
    · simp only [Prod.mk.injEq] at hEq
      obtain ⟨-, -, hevs⟩ := hEq
      subst hevs
      simp
    · split at hEq
      · simp only [Prod.mk.injEq] at hEq
        obtain ⟨-, -, hevs⟩ := hEq
        subst hevs
        simp
      · rename_i maps₁ mask₁ s₁ evs₁ heq
        obtain ⟨hne1, hne2⟩ :=
          transformAlign_no_extract _ _ _ _ _ _ _ _ _ heq
        repeat' split at hEq
        all_goals simp only [Prod.mk.injEq] at hEq
        all_goals obtain ⟨hout, -, hevs⟩ := hEq
        all_goals
          (subst hevs
           refine ⟨?_, ?_⟩ <;> simp_all [List.mem_cons])
  · simp_all

theorem transformRun_allow_overlap_ne
    (ext : VoxData → VoxData → Option VoxData → Bool → Signals)
    (cleanFn : Signals → Confounds → SampleMask → Signals)
    (s : Store) (m : Masker) (imgs : Img) (confounds : Confounds)
    (sample_mask : SampleMask) (hao : m.allow_overlap = true) :
    (transformRun ext cleanFn s m imgs confounds sample_mask).1
      ≠ .error .overlapError := by
  rcases hEq : transformRun ext cleanFn s m imgs confounds sample_mask
    with ⟨out, s', evs⟩
  simp only
  intro h
  subst h
  unfold transformRun at hEq
  dsimp only at hEq
  split at hEq
  · split at hEq
    · rename_i e heq
      have he := check_niimg_err _ _ _ heq
      simp_all
    · split at hEq
      · rename_i e heq
        have he := transformAlign_err _ _ _ _ _ _ heq
        simp_all
      · repeat' split at hEq
        all_goals
          (rename_i hover
           rw [hao] at hover
           simp_all)
  · simp_all

theorem fitFinish_erase (p1 p2 : Option Img) (p3 : Bool)
    (p4 : ResamplingTarget) (p5 p6 : Bool) (m1 : Option Img)
    (m2 : Option (Option Img)) (n : Option Nat) (r : Option (Option Img))
    (maps : Img) (acc : List VoxData) (evs : List Event) :
    fitFinish ⟨p1, p2, p3, p4, p5, p6, m1, m2, n, r⟩ maps acc evs
      = fitFinish ⟨p1, p2, p3, p4, p5, p6, m1, m2, none, none⟩ maps acc
          evs := by
  unfold fitFinish
  dsimp only
  split <;> rfl

theorem fitAlign_erase (s : Store) (io : Option Img) (mc : Img)
    (dc : VoxData) (mo : Option Img) (acc : List VoxData) (evs : List Event)
    (p1 p2 : Option Img) (p3 : Bool) (p4 : ResamplingTarget) (p5 p6 : Bool)
    (m1 : Option Img) (m2 : Option (Option Img)) (n : Option Nat)
    (r : Option (Option Img)) :
    (fitAlign s ⟨p1, p2, p3, p4, p5, p6, m1, m2, n, r⟩ io mc dc mo acc
        evs).out
      = (fitAlign s ⟨p1, p2, p3, p4, p5, p6, m1, m2, none, none⟩ io mc dc
          mo acc evs).out
    ∧ (fitAlign s ⟨p1, p2, p3, p4, p5, p6, m1, m2, n, r⟩ io mc dc mo acc
        evs).acc
      = (fitAlign s ⟨p1, p2, p3, p4, p5, p6, m1, m2, none, none⟩ io mc dc
          mo acc evs).acc
    ∧ (fitAlign s ⟨p1, p2, p3, p4, p5, p6, m1, m2, n, r⟩ io mc dc mo acc
        evs).events
      = (fitAlign s ⟨p1, p2, p3, p4, p5, p6, m1, m2, none, none⟩ io mc dc
          mo acc evs).events
    ∧ ((fitAlign s ⟨p1, p2, p3, p4, p5, p6, m1, m2, n, r⟩ io mc dc mo acc
          evs).out = .ok () →
        (fitAlign s ⟨p1, p2, p3, p4, p5, p6, m1, m2, n, r⟩ io mc dc mo acc
          evs).state
          = (fitAlign s ⟨p1, p2, p3, p4, p5, p6, m1, m2, none, none⟩ io mc
              dc mo acc evs).state) := by
  cases io <;> cases mo <;>
    · unfold fitAlign
      dsimp only
      repeat' split
      all_goals refine ⟨?_, ?_, ?_, fun h => ?_⟩
      all_goals try (simp only [fitFinish_erase])
      all_goals first
        | rfl
        | simp at h

theorem fitLoadMask_erase (s : Store) (io : Option Img) (mc : Img)
    (dc : VoxData) (acc : List VoxData) (evs : List Event)
    (p1 p2 : Option Img) (p3 : Bool) (p4 : ResamplingTarget) (p5 p6 : Bool)
    (m1 : Option Img) (m2 : Option (Option Img)) (n : Option Nat)
    (r : Option (Option Img)) :
    (fitLoadMask s ⟨p1, p2, p3, p4, p5, p6, m1, m2, n, r⟩ io mc dc acc
        evs).out
      = (fitLoadMask s ⟨p1, p2, p3, p4, p5, p6, m1, none, none, none⟩ io mc
          dc acc evs).out
    ∧ (fitLoadMask s ⟨p1, p2, p3, p4, p5, p6, m1, m2, n, r⟩ io mc dc acc
        evs).acc
      = (fitLoadMask s ⟨p1, p2, p3, p4, p5, p6, m1, none, none, none⟩ io mc
          dc acc evs).acc
    ∧ (fitLoadMask s ⟨p1, p2, p3, p4, p5, p6, m1, m2, n, r⟩ io mc dc acc
        evs).events
      = (fitLoadMask s ⟨p1, p2, p3, p4, p5, p6, m1, none, none, none⟩ io mc
          dc acc evs).events
    ∧ ((fitLoadMask s ⟨p1, p2, p3, p4, p5, p6, m1, m2, n, r⟩ io mc dc acc
          evs).out = .ok () →
        (fitLoadMask s ⟨p1, p2, p3, p4, p5, p6, m1, m2, n, r⟩ io mc dc acc
          evs).state
          = (fitLoadMask s ⟨p1, p2, p3, p4, p5, p6, m1, none, none, none⟩
              io mc dc acc evs).state) := by
  unfold fitLoadMask
  dsimp only
  repeat' split
  all_goals first
    | apply fitAlign_erase
    | (refine ⟨?_, ?_, ?_, fun h => ?_⟩
       all_goals first | rfl | simp at h)

theorem fitCore_erase (s : Store) (imgs : Option Img)
    (p1 p2 : Option Img) (p3 : Bool) (p4 : ResamplingTarget) (p5 p6 : Bool)
    (m1 : Option Img) (m2 : Option (Option Img)) (n : Option Nat)
    (r : Option (Option Img)) :
    (fitCore s ⟨p1, p2, p3, p4, p5, p6, m1, m2, n, r⟩ imgs).out
      = (fitCore s ⟨p1, p2, p3, p4, p5, p6, none, none, none, none⟩
          imgs).out
    ∧ (fitCore s ⟨p1, p2, p3, p4, p5, p6, m1, m2, n, r⟩ imgs).acc
      = (fitCore s ⟨p1, p2, p3, p4, p5, p6, none, none, none, none⟩
          imgs).acc
    ∧ (fitCore s ⟨p1, p2, p3, p4, p5, p6, m1, m2, n, r⟩ imgs).events
      = (fitCore s ⟨p1, p2, p3, p4, p5, p6, none, none, none, none⟩
          imgs).events
    ∧ ((fitCore s ⟨p1, p2, p3, p4, p5, p6, m1, m2, n, r⟩ imgs).out
        = .ok () →
        (fitCore s ⟨p1, p2, p3, p4, p5, p6, m1, m2, n, r⟩ imgs).state
          = (fitCore s ⟨p1, p2, p3, p4, p5, p6, none, none, none, none⟩
              imgs).state) := by
  cases imgs <;>
    · unfold fitCore
      dsimp only
      repeat' split
      all_goals first
        | apply fitLoadMask_erase
        | (refine ⟨?_, ?_, ?_, fun h => ?_⟩
           all_goals first | rfl | simp at h)

end Lemmas



section Claims

/-- C2 (the claim is right, the code is not): the overlap check mutates
the fitted maps in place.  `data = get_data(maps_img_)` (line 658) yields
an in-memory image's own array, and `data[data < eps] = 0.0` (line 661)
writes through that alias.  On a fitted masker with `allow_overlap=False`
and float maps containing a negative value, a grid-aligned `transform`
overwrites the fitted `maps_img_` heap entry with its sub-epsilon-zeroed
copy — the negative value becomes 0 — while completing without an overlap
error and leaving the masker's attributes untouched: the voxel data the
fitted state contains is not left unchanged, contradicting the claim. -/
theorem transform_zeroes_fitted_maps_in_place :
    readData (transform_single_imgs img_to_signals_maps clean_signals
        storeN maskerF imgsImg0 none none).store mapsImg0.ref
      = zeroSubEps (readData storeN mapsImg0.ref)
    ∧ readData (transform_single_imgs img_to_signals_maps clean_signals
        storeN maskerF imgsImg0 none none).store mapsImg0.ref
      ≠ readData storeN mapsImg0.ref
    ∧ (transform_single_imgs img_to_signals_maps clean_signals storeN
        maskerF imgsImg0 none none).state = maskerF
    ∧ (transform_single_imgs img_to_signals_maps clean_signals storeN
        maskerF imgsImg0 none none).out ≠ .error .overlapError :=
  ⟨by decide, by decide, by decide, by decide⟩

/-- C4: the configuration errors of `fit` are eager: with
`resampling_target="mask"` and no mask, or with an invalid
`resampling_target`, `fit` fails with a configuration error leaving the
state and heap untouched and an empty event trace (no image data is loaded
or resampled). -/
theorem fit_config_errors_are_eager :
    ∀ (s : Store) (m : Masker) (imgs : Option Img),
      (m.resampling_target = .maskT → m.mask_img = none →
        fit s m imgs = ⟨.error .configError, m, s, []⟩)
      ∧ (m.resampling_target = .invalid →
        fit s m imgs = ⟨.error .configError, m, s, []⟩) := by
  intro s m imgs
  constructor
  · intro h1 h2
    simp [fit, fitCore, h1, h2]
  · intro h
    simp [fit, fitCore, h]

/-- Witness for C4: concrete maskers hitting both configuration errors. -/
theorem fit_config_errors_are_eager_witness :
    fit store0 maskerNoMask none
      = ⟨.error .configError, maskerNoMask, store0, []⟩
    ∧ fit store0 maskerBadRT none
      = ⟨.error .configError, maskerBadRT, store0, []⟩ :=
  ⟨(fit_config_errors_are_eager store0 maskerNoMask none).1 rfl rfl,
   (fit_config_errors_are_eager store0 maskerBadRT none).2 rfl⟩

/-- C6: on a masker whose fit has not completed (`maps_img_` or
`n_elements_` not set), `transform` and `inverse_transform` fail with
`NotFittedError` before any computation: state and heap are untouched and
the event trace is empty. -/
theorem unfitted_transform_raises_not_fitted :
    ∀ (ext : VoxData → VoxData → Option VoxData → Bool → Signals)
      (cleanFn : Signals → Confounds → SampleMask → Signals)
      (s : Store) (m : Masker) (imgs : Img) (confounds : Confounds)
      (sample_mask : SampleMask) (signals : Signals),
      (m.mapsImg' = none ∨ m.nElements' = none) →
        transform_single_imgs ext cleanFn s m imgs confounds sample_mask
          = ⟨.error .notFittedError, m, s, []⟩
        ∧ inverse_transform s m signals = ⟨.error .notFittedError, s, []⟩ := by
  intro ext cleanFn s m imgs confounds sample_mask signals h
  rcases h with h | h
  · constructor <;>
      · cases hn : m.nElements' <;>
          simp [transform_single_imgs, transformRun, inverse_transform, h, hn]
  · constructor <;>
      · cases hm : m.mapsImg' <;>
          simp [transform_single_imgs, transformRun, inverse_transform, h, hm]

/-- Witness for C6 at a freshly constructed (never fitted) masker. -/
theorem unfitted_transform_raises_not_fitted_witness :
    transform_single_imgs img_to_signals_maps clean_signals store0 masker0
      imgsImg0 none none = ⟨.error .notFittedError, masker0, store0, []⟩
    ∧ inverse_transform store0 masker0 [[1, 2]]
      = ⟨.error .notFittedError, store0, []⟩ :=
  unfitted_transform_raises_not_fitted img_to_signals_maps clean_signals
    store0 masker0 imgsImg0 none none [[1, 2]] (Or.inl rfl)

/-- C9: `fit` never modifies a caller-supplied image: the fitted maps are
built from a copy allocated on fresh heap entries, so every pre-existing
heap entry — in particular the caller's maps array — is left bit-identical
by `fit`. -/
theorem fit_never_mutates_caller_images :
    ∀ (s : Store) (m : Masker) (imgs : Option Img) (mi : Img),
      m.maps_img = some mi → mi.ref < s.length →
        readData (fit s m imgs).store mi.ref = readData s mi.ref
        ∧ ∀ r, r < s.length →
            readData (fit s m imgs).store r = readData s r := by
  intro s m imgs mi _ h
  refine ⟨?_, fun r hr => ?_⟩
  · exact readData_append_left s (fitCore s m imgs).acc mi.ref h
  · exact readData_append_left s (fitCore s m imgs).acc r hr

/-- Witness for C9: fitting the example masker leaves the caller's maps
array unchanged. -/
theorem fit_never_mutates_caller_images_witness :
    readData (fit store0 masker0 (some imgsImg0)).store mapsImg0.ref
      = readData store0 mapsImg0.ref :=
  (fit_never_mutates_caller_images store0 masker0 (some imgsImg0) mapsImg0
    rfl (by decide)).1

/-- C8 counterexample: requesting more maps than exist via a list does not
warn-and-proceed; the report-map selection raises a `ValueError` when the
masker has 2 maps and `displayed_maps=[5]` is requested. -/
theorem reporting_list_request_raises :
    reporting_maps_to_be_displayed (.list [5]) 2 = .error .valueError := by
  decide

/-- C8 amended: an integer request larger than the number of maps warns and
proceeds with all maps (and an integer within range proceeds silently), but
a list/array request whose maximum exceeds the number of maps raises a
`ValueError` (a list within range proceeds silently). -/
theorem reporting_excess_maps_amended :
    (∀ k n, n < k →
      reporting_maps_to_be_displayed (.int k) n
        = .ok (List.range n, true, .int n))
    ∧ (∀ k n, k ≤ n →
      reporting_maps_to_be_displayed (.int k) n
        = .ok (List.range k, false, .int k))
    ∧ (∀ x xs n, n < (x :: xs).foldl Nat.max 0 →
      reporting_maps_to_be_displayed (.list (x :: xs)) n
        = .error .valueError)
    ∧ (∀ x xs n, (x :: xs).foldl Nat.max 0 ≤ n →
      reporting_maps_to_be_displayed (.list (x :: xs)) n
        = .ok (x :: xs, false, .list (x :: xs))) := by
  refine ⟨fun k n h => ?_, fun k n h => ?_, fun x xs n h => ?_,
    fun x xs n h => ?_⟩
  · simp only [reporting_maps_to_be_displayed]
    rw [if_pos h]
  · simp only [reporting_maps_to_be_displayed]
    rw [if_neg (Nat.not_lt.2 h)]
  · simp only [reporting_maps_to_be_displayed]
    rw [if_pos h]
  · simp only [reporting_maps_to_be_displayed]
    rw [if_neg (Nat.not_lt.2 h)]

/-- Witness for the amended C8 at concrete inputs. -/
theorem reporting_excess_maps_amended_witness :
    reporting_maps_to_be_displayed (.int 16) 2
      = .ok (List.range 2, true, .int 2)
    ∧ reporting_maps_to_be_displayed (.list [5]) 2 = .error .valueError :=
  ⟨reporting_excess_maps_amended.1 16 2 (by decide),
   reporting_excess_maps_amended.2.2.1 5 [] 2 (by decide)⟩

/-- C10: `fit` performs no overlap check: it can only fail with
configuration, validation, field-of-view or mask errors — never with the
overlap error — and on the concrete masker over overlapping maps with
`allow_overlap=False` it completes successfully; the invalid overlapping
configuration is rejected only at the first `transform` call. -/
theorem fit_accepts_overlapping_maps :
    (∀ (s : Store) (m : Masker) (imgs : Option Img) (e : Err),
      (fit s m imgs).out = .error e → e ≠ .overlapError)
    ∧ (fit store0 masker0 (some imgsImg0)).out = .ok ()
    ∧ (transform_single_imgs img_to_signals_maps clean_signals
        (fit store0 masker0 (some imgsImg0)).store
        (fit store0 masker0 (some imgsImg0)).state imgsImg0 none none).out
      = .error .overlapError := by
  refine ⟨?_, by decide, by decide⟩
  intro s m imgs e h hc
  subst hc
  exact fitCore_ne_overlap s m imgs h

/-- Witness for C10's universally quantified part at a concrete failing
fit. -/
theorem fit_accepts_overlapping_maps_witness :
    (fit store0 maskerBadRT none).out = .error .configError
    ∧ Err.configError ≠ Err.overlapError :=
  ⟨by decide,
   fit_accepts_overlapping_maps.1 store0 maskerBadRT none .configError
     (by decide)⟩

/-- C5: every resampling of the maps image — at fit or at transform time —
uses linear interpolation, and every resampling of the mask image uses
nearest-neighbor interpolation, on every execution path. -/
theorem resampling_interpolation_policy :
    ∀ (ext : VoxData → VoxData → Option VoxData → Bool → Signals)
      (cleanFn : Signals → Confounds → SampleMask → Signals)
      (s : Store) (m : Masker) (imgsO : Option Img) (imgs : Img)
      (confounds : Confounds) (sample_mask : SampleMask),
      interpPolicyOK (fit s m imgsO).events = true
      ∧ interpPolicyOK (transform_single_imgs ext cleanFn s m imgs confounds
          sample_mask).events = true := by
  intro ext cleanFn s m imgsO imgs confounds sample_mask
  exact ⟨interp_fitCore s m imgsO,
    interp_transformRun ext cleanFn s m imgs confounds sample_mask⟩

/-- C7: `fit_transform` is exactly the sequential composition of `fit` and
`transform` on the same masker: on fit success it returns precisely what
`transform` returns on the fitted state (with the concatenated trace), and
a fit failure propagates unchanged. -/
theorem fit_transform_is_fit_then_transform :
    ∀ (ext : VoxData → VoxData → Option VoxData → Bool → Signals)
      (cleanFn : Signals → Confounds → SampleMask → Signals)
      (s : Store) (m : Masker) (imgs : Img) (confounds : Confounds)
      (sample_mask : SampleMask),
      ((fit s m (some imgs)).out = .ok () →
        fit_transform ext cleanFn s m imgs confounds sample_mask
          = ⟨(transform ext cleanFn (fit s m (some imgs)).store
                (fit s m (some imgs)).state imgs confounds sample_mask).out,
              (transform ext cleanFn (fit s m (some imgs)).store
                (fit s m (some imgs)).state imgs confounds sample_mask).state,
              (transform ext cleanFn (fit s m (some imgs)).store
                (fit s m (some imgs)).state imgs confounds sample_mask).store,
              (fit s m (some imgs)).events
                ++ (transform ext cleanFn (fit s m (some imgs)).store
                     (fit s m (some imgs)).state imgs confounds
                     sample_mask).events⟩)
      ∧ ∀ e, (fit s m (some imgs)).out = .error e →
          fit_transform ext cleanFn s m imgs confounds sample_mask
            = ⟨.error e, (fit s m (some imgs)).state,
                (fit s m (some imgs)).store, (fit s m (some imgs)).events⟩ := by
  intro ext cleanFn s m imgs confounds sample_mask
  constructor
  · intro h
    simp only [fit_transform, h]
  · intro e h
    simp only [fit_transform, h]

/-- Witness for C7 at a concrete successful fit. -/
theorem fit_transform_is_fit_then_transform_witness :
    fit_transform img_to_signals_maps clean_signals store0 masker3 imgsImgB
      none none
      = ⟨(transform img_to_signals_maps clean_signals
            (fit store0 masker3 (some imgsImgB)).store
            (fit store0 masker3 (some imgsImgB)).state imgsImgB none
            none).out,
          (transform img_to_signals_maps clean_signals
            (fit store0 masker3 (some imgsImgB)).store
            (fit store0 masker3 (some imgsImgB)).state imgsImgB none
            none).state,
          (transform img_to_signals_maps clean_signals
            (fit store0 masker3 (some imgsImgB)).store
            (fit store0 masker3 (some imgsImgB)).state imgsImgB none
            none).store,
          (fit store0 masker3 (some imgsImgB)).events
            ++ (transform img_to_signals_maps clean_signals
                 (fit store0 masker3 (some imgsImgB)).store
                 (fit store0 masker3 (some imgsImgB)).state imgsImgB none
                 none).events⟩ :=
  (fit_transform_is_fit_then_transform img_to_signals_maps clean_signals
    store0 masker3 imgsImgB none none).1 (by decide)

/-- C1: with `allow_overlap=False`, `transform` raises the overlap error
whenever some voxel surviving the mask has — after sub-epsilon zeroing for
floating maps — a strictly positive value in more than one map (stated here
on the grid-aligned path, where the checked maps are the fitted maps), and
whenever the overlap error is raised, no extraction and no cleaning event
has run; with `allow_overlap=True` the overlap error is never raised and,
on a fitted masker with aligned grids, `transform` returns the extracted
and cleaned region-signal matrix. -/
theorem overlap_check_before_extraction :
    (∀ (ext : VoxData → VoxData → Option VoxData → Bool → Signals)
       (cleanFn : Signals → Confounds → SampleMask → Signals)
       (s : Store) (m : Masker) (imgs : Img) (confounds : Confounds)
       (sample_mask : SampleMask) (maps0 mask0 : Img) (n : Nat),
      m.allow_overlap = false →
      m.mapsImg' = some maps0 → m.nElements' = some n →
      m.maskImg' = some (some mask0) →
      m.resampling_target = .dataT → imgs.shape.length = 4 →
      check_same_fov imgs.shape imgs.affine maps0.shape maps0.affine
        = true →
      check_same_fov imgs.shape imgs.affine mask0.shape mask0.affine
        = true →
      overlapAfterMasking (readData s mask0.ref) maps0.isFloat
        (readData s maps0.ref) = true →
      (transform_single_imgs ext cleanFn s m imgs confounds
        sample_mask).out = .error .overlapError)
    ∧ (∀ (ext : VoxData → VoxData → Option VoxData → Bool → Signals)
         (cleanFn : Signals → Confounds → SampleMask → Signals)
         (s : Store) (m : Masker) (imgs : Img) (confounds : Confounds)
         (sample_mask : SampleMask),
        (transform_single_imgs ext cleanFn s m imgs confounds
          sample_mask).out = .error .overlapError →
          Event.extract ∉ (transform_single_imgs ext cleanFn s m imgs
            confounds sample_mask).events
          ∧ Event.clean ∉ (transform_single_imgs ext cleanFn s m imgs
              confounds sample_mask).events)
    ∧ (∀ (ext : VoxData → VoxData → Option VoxData → Bool → Signals)
         (cleanFn : Signals → Confounds → SampleMask → Signals)
         (s : Store) (m : Masker) (imgs : Img) (confounds : Confounds)
         (sample_mask : SampleMask),
        m.allow_overlap = true →
          (transform_single_imgs ext cleanFn s m imgs confounds
            sample_mask).out ≠ .error .overlapError)
    ∧ (∀ (ext : VoxData → VoxData → Option VoxData → Bool → Signals)
         (cleanFn : Signals → Confounds → SampleMask → Signals)
         (s : Store) (m : Masker) (imgs : Img) (confounds : Confounds)
         (sample_mask : SampleMask) (maps0 mask0 : Img) (n : Nat),
        m.allow_overlap = true →
        m.mapsImg' = some maps0 → m.nElements' = some n →
        m.maskImg' = some (some mask0) →
        m.resampling_target = .dataT → imgs.shape.length = 4 →
        check_same_fov imgs.shape imgs.affine maps0.shape maps0.affine
          = true →
        check_same_fov imgs.shape imgs.affine mask0.shape mask0.affine
          = true →
        (transform_single_imgs ext cleanFn s m imgs confounds
          sample_mask).out
          = .ok (cleanFn (ext (readData s imgs.ref) (readData s maps0.ref)
              (some (readData s mask0.ref)) m.keep_masked_maps)
              confounds sample_mask)) := by
  refine ⟨?_, ?_, ?_, ?_⟩
  · intro ext cleanFn s m imgs confounds sample_mask maps0 mask0 n hao
      hmaps hn hmask hrt him hfovM hfovK hov
    have hod := overlapAfterMasking_mono _ _ _ hov
    show (transformRun ext cleanFn s m imgs confounds sample_mask).1 = _
    rw [transformRun_aligned ext cleanFn s m imgs confounds sample_mask
      maps0 mask0 n hmaps hn hmask hrt him hfovM hfovK, hao]
    simp [hod]
  · intro ext cleanFn s m imgs confounds sample_mask h
    exact transformRun_overlap_no_extract ext cleanFn s m imgs confounds
      sample_mask h
  · intro ext cleanFn s m imgs confounds sample_mask hao
    exact transformRun_allow_overlap_ne ext cleanFn s m imgs confounds
      sample_mask hao
  · intro ext cleanFn s m imgs confounds sample_mask maps0 mask0 n hao
      hmaps hn hmask hrt him hfovM hfovK
    show (transformRun ext cleanFn s m imgs confounds sample_mask).1 = _
    rw [transformRun_aligned ext cleanFn s m imgs confounds sample_mask
      maps0 mask0 n hmaps hn hmask hrt him hfovM hfovK, hao]
    simp

/-- Witness for C1 at the concrete overlapping fitted masker. -/
theorem overlap_check_before_extraction_witness :
    (transform_single_imgs img_to_signals_maps clean_signals store0 maskerF
      imgsImg0 none none).out = .error .overlapError :=
  overlap_check_before_extraction.1 img_to_signals_maps clean_signals
    store0 maskerF imgsImg0 none none mapsImg0 maskImg0 2 rfl rfl rfl rfl
    rfl (by decide) (by decide) (by decide) (by decide)

/-- C3 counterexample: a second `fit` that fails midway leaves a partial
update.  The masker is first fitted with data on a different grid (so the
fitted maps are resampled), then re-fitted with an invalid 2D input: the
second call fails validating the input, after it has already replaced
`maps_img_` (now on the original maps grid) but before it touched
`n_elements_` — the observable state is neither the old nor any complete
new fitted state. -/
theorem refit_not_atomic_counterexample :
    (fit store0 masker3 (some imgsImgB)).out = .ok ()
    ∧ (fit (fit store0 masker3 (some imgsImgB)).store
        (fit store0 masker3 (some imgsImgB)).state (some imgsBad)).out
      = .error .dimensionError
    ∧ (fit (fit store0 masker3 (some imgsImgB)).store
        (fit store0 masker3 (some imgsImgB)).state
        (some imgsBad)).state.mapsImg'
      ≠ (fit store0 masker3 (some imgsImgB)).state.mapsImg'
    ∧ (fit (fit store0 masker3 (some imgsImgB)).store
        (fit store0 masker3 (some imgsImgB)).state
        (some imgsBad)).state.nElements'
      = (fit store0 masker3 (some imgsImgB)).state.nElements' :=
  ⟨by decide, by decide, by decide, by decide⟩

/-- C3 amended: a successful second `fit` replaces the fitted state
wholesale — the outcome, the heap, the trace, and (on success) the entire
resulting state are independent of whatever fitted attributes the masker
held before the call.  Atomicity on failure does not hold: see the
counterexample, where a failed re-fit leaves a partially updated state. -/
theorem refit_replaces_fitted_state_wholesale :
    ∀ (s : Store) (imgs : Option Img) (m : Masker) (a : Option Img)
      (b : Option (Option Img)) (c : Option Nat) (d : Option (Option Img)),
      (fit s { m with
          mapsImg' := a, maskImg' := b, nElements' := c,
          reportingData := d } imgs).out = (fit s m imgs).out
      ∧ (fit s { m with
          mapsImg' := a, maskImg' := b, nElements' := c,
          reportingData := d } imgs).store = (fit s m imgs).store
      ∧ (fit s { m with
          mapsImg' := a, maskImg' := b, nElements' := c,
          reportingData := d } imgs).events = (fit s m imgs).events
      ∧ ((fit s m imgs).out = .ok () →
          (fit s { m with
            mapsImg' := a, maskImg' := b, nElements' := c,
            reportingData := d } imgs).state = (fit s m imgs).state) := by
  intro s imgs m a b c d
  cases m with
  | mk p1 p2 p3 p4 p5 p6 f1 f2 f3 f4 =>
    obtain ⟨hLo, hLa, hLe, hLs⟩ :=
      fitCore_erase s imgs p1 p2 p3 p4 p5 p6 a b c d
    obtain ⟨hRo, hRa, hRe, hRs⟩ :=
      fitCore_erase s imgs p1 p2 p3 p4 p5 p6 f1 f2 f3 f4
    refine ⟨hLo.trans hRo.symm, ?_, hLe.trans hRe.symm, ?_⟩
    · show s ++ _ = s ++ _
      exact congrArg (s ++ ·) (hLa.trans hRa.symm)
    · intro h
      have hok : (fitCore s ⟨p1, p2, p3, p4, p5, p6, f1, f2, f3, f4⟩
          imgs).out = .ok () := h
      have hokL : (fitCore s ⟨p1, p2, p3, p4, p5, p6, a, b, c, d⟩
          imgs).out = .ok () := hLo.trans (hRo.symm.trans hok)
      exact (hLs hokL).trans (hRs hok).symm

/-- Witness for the amended C3 at a concrete successful re-fit: the stale
fitted attributes do not influence the resulting fitted state. -/
theorem refit_replaces_fitted_state_wholesale_witness :
    (fit store0 maskerStale (some imgsImgB)).state
      = (fit store0 masker3 (some imgsImgB)).state :=
  (refit_replaces_fitted_state_wholesale store0 (some imgsImgB) masker3
    (some mapsImg0) (some (some maskImg0)) (some 99)
    (some none)).2.2.2 (by decide)

end Claims

end Nilearn
